import Mathlib

/-!
Verification of the SautiDarasa client-side audio streaming and transcript
pipeline: the PCM frame encoder (`floatTo16BitPCM`), the chunk accumulator and
flush path (`processAndSendChunks`, `stopRecording`, `startRecording`) from
`src/hooks/useAudioRecorder.ts`, and the WebSocket transport and transcript
reconciler (`connect`, `disconnect`, `onopen`, `onmessage`, `onerror`,
`onclose`) from `src/hooks/useTranscriptionWebSocket.ts`.

Floating-point samples are modelled as rationals; JavaScript assignment into an
`Int16Array` truncates toward zero, modelled by `truncQ`. Side effects (packet
transmission, socket creation, timer management) are modelled as explicit
action traces returned alongside the successor state.
-/

namespace SautiDarasa

/-- Truncation toward zero of a rational, the conversion JavaScript applies
when a number is stored into an `Int16Array` element (ToInt16 after
`ToIntegerOrInfinity`, which truncates toward zero; values here never wrap). -/
def truncQ (q : ℚ) : ℤ :=
  if q < 0 then -(Int.floor (-q)) else Int.floor q

/-- One sample of `floatTo16BitPCM` (useAudioRecorder.ts lines 66-73):
`const s = Math.max(-1, Math.min(1, float32Array[i]));`
`int16Array[i] = s < 0 ? s * 0x8000 : s * 0x7FFF;` -/
def floatTo16BitPCM_sample (x : ℚ) : ℤ :=
  let s := max (-1) (min 1 x)
  if s < 0 then truncQ (s * 32768) else truncQ (s * 32767)

/-- `floatTo16BitPCM` maps the sample conversion over the input buffer in
order (the `for` loop over `float32Array`). -/
def floatTo16BitPCM (l : List ℚ) : List ℤ :=
  l.map floatTo16BitPCM_sample

/-- Modelled from the spec: "decoding the encoded 16-bit integer and rescaling
back to float". No decoder exists under src/ (the remote endpoint consumes the
PCM), so the rescaling inverts the encoder's asymmetric quantization: negative
code words are divided by 32768, non-negative ones by 32767. -/
def decodeSample (n : ℤ) : ℚ :=
  if n < 0 then (n : ℚ) / 32768 else (n : ℚ) / 32767

/-- Mutable state of the `useAudioRecorder` hook: the ref cells
(`workletNodeRef`, `chunkIntervalRef`, `audioChunksRef`, `audioContextRef`,
`streamRef`) plus the `isRecording`/`isPaused` flags. Presence booleans model
whether the corresponding ref currently holds a non-null resource. `sent`
records the packets handed to the `onAudioData` callback, in order. -/
structure RecorderState where
  workletPresent : Bool
  intervalSet : Bool
  audioChunks : List (List ℚ)
  contextPresent : Bool
  streamPresent : Bool
  isRecording : Bool
  isPaused : Bool
  sent : List (List ℤ)
deriving DecidableEq

/-- Observable side effects of the recorder hook, in program order. -/
inductive RecAction where
  | workletStopMsg
  | workletStartMsg
  | clearChunkInterval
  | sendPacket (p : List ℤ)
  | disconnectWorklet
  | closeAudioContext
  | releaseStream
  | acquireStream
  | createAudioContext
  | createWorkletNode
  | setChunkInterval
deriving DecidableEq

/-- The hook's initial ref/flag values (useAudioRecorder.ts lines 23-36). -/
def initialRecorderState : RecorderState where
  workletPresent := false
  intervalSet := false
  audioChunks := []
  contextPresent := false
  streamPresent := false
  isRecording := false
  isPaused := false
  sent := []

/-- The worklet `onmessage` handler (useAudioRecorder.ts lines 133-139):
each `audioData` message appends one captured frame to `audioChunksRef`. -/
def onAudioChunk (frame : List ℚ) (st : RecorderState) : RecorderState :=
  { st with audioChunks := st.audioChunks ++ [frame] }

/-- `processAndSendChunks` (useAudioRecorder.ts lines 76-104): if the chunk
list is empty, return immediately; otherwise concatenate all frames in order,
convert to 16-bit PCM, clear the chunk list, and invoke `onAudioData` with the
packet. -/
def processAndSendChunks (st : RecorderState) : RecorderState × List RecAction :=
  if st.audioChunks.isEmpty then (st, [])
  else
    let packet := floatTo16BitPCM st.audioChunks.flatten
    ({ st with audioChunks := [], sent := st.sent ++ [packet] },
     [RecAction.sendPacket packet])

/-- `startRecording` (useAudioRecorder.ts lines 107-171), success path: reuse
the stream if present (else acquire one), then unconditionally create a new
AudioContext and AudioWorkletNode, post the start command, install a new flush
interval, and set the recording flags. There is no already-recording guard. -/
def startRecording (st : RecorderState) : RecorderState × List RecAction :=
  let acquire := if st.streamPresent then [] else [RecAction.acquireStream]
  ({ st with
      streamPresent := true
      contextPresent := true
      workletPresent := true
      intervalSet := true
      isRecording := true
      isPaused := false },
   acquire ++ [RecAction.createAudioContext, RecAction.createWorkletNode,
     RecAction.workletStartMsg, RecAction.setChunkInterval])

/-- `stopRecording` (useAudioRecorder.ts lines 174-214), in program order:
post the stop command to the worklet if present, clear the flush interval if
set, flush remaining chunks if any, disconnect the worklet, close the
AudioContext, stop the stream tracks, and reset the flags. -/
def stopRecording (st : RecorderState) : RecorderState × List RecAction :=
  let acts1 := if st.workletPresent then [RecAction.workletStopMsg] else []
  let acts2 := if st.intervalSet then [RecAction.clearChunkInterval] else []
  let st1 := { st with intervalSet := false }
  let flushed := if st1.audioChunks.isEmpty then (st1, []) else processAndSendChunks st1
  let acts3 := if st.workletPresent then [RecAction.disconnectWorklet] else []
  let acts4 := if st.contextPresent then [RecAction.closeAudioContext] else []
  let acts5 := if st.streamPresent then [RecAction.releaseStream] else []
  ({ flushed.1 with
      workletPresent := false
      contextPresent := false
      streamPresent := false
      isRecording := false
      isPaused := false },
   acts1 ++ acts2 ++ flushed.2 ++ acts3 ++ acts4 ++ acts5)

/-- State of the `useTranscriptionWebSocket` hook: the React state fields
(`interimTranscript`, `finalTranscript`, `isConnected`, `error`) plus the refs
(`reconnectAttemptsRef`, `reconnectTimeoutRef`, `wsRef`). `wsPresent` models
`wsRef.current !== null`; `wsOpen` models `readyState === WebSocket.OPEN`. -/
structure WSState where
  interimTranscript : String
  finalTranscript : String
  isConnected : Bool
  error : Option String
  reconnectAttempts : ℕ
  reconnectTimeoutSet : Bool
  wsPresent : Bool
  wsOpen : Bool
deriving DecidableEq

/-- Observable side effects of the transport hook, in program order. -/
inductive WSAction where
  | createSocket
  | scheduleReconnect
  | sendStopCommand
  | closeSocket (code : ℕ)
  | clearReconnectTimeout
deriving DecidableEq

/-- `MAX_RECONNECT_ATTEMPTS` (useTranscriptionWebSocket.ts line 33). -/
def MAX_RECONNECT_ATTEMPTS : ℕ := 5

/-- The hook's initial state (useTranscriptionWebSocket.ts lines 23-34). -/
def initialWSState : WSState where
  interimTranscript := ""
  finalTranscript := ""
  isConnected := false
  error := none
  reconnectAttempts := 0
  reconnectTimeoutSet := false
  wsPresent := false
  wsOpen := false

/-- `connect` (useTranscriptionWebSocket.ts lines 39-50): if the current
socket's readyState is OPEN, log and return without touching anything;
otherwise construct a new WebSocket (initially connecting, not open) and store
it in `wsRef`. -/
def connect (st : WSState) : WSState × List WSAction :=
  if st.wsPresent && st.wsOpen then (st, [])
  else ({ st with wsPresent := true, wsOpen := false }, [WSAction.createSocket])

/-- `ws.onopen` (lines 52-60): reset the reconnect-attempt counter to 0 and
mark the connection established with no error. -/
def onopen (st : WSState) : WSState :=
  { st with reconnectAttempts := 0, isConnected := true, error := none, wsOpen := true }

/-- An inbound WebSocket message after JSON parsing: a transcription event, an
error event, or an unparseable payload. -/
inductive WSMessage where
  | transcription (transcript : String) (isFinal : Bool)
  | errorMessage (message : String)
  | malformed
deriving DecidableEq

/-- `ws.onmessage` (lines 62-93): a final transcription appends its text plus
a space to `finalTranscript` and clears `interimTranscript`; an interim
transcription replaces `interimTranscript`; an error message sets the error
field; a malformed payload is logged and dropped. -/
def onmessage (m : WSMessage) (st : WSState) : WSState :=
  match m with
  | WSMessage.transcription t f =>
      if f then
        { st with
            finalTranscript := st.finalTranscript ++ t ++ " "
            interimTranscript := "" }
      else
        { st with interimTranscript := t }
  | WSMessage.errorMessage msg => { st with error := some msg }
  | WSMessage.malformed => st

/-- `ws.onerror` (lines 95-102): record a connection error and mark the
connection down; nothing else changes. -/
def onerror (st : WSState) : WSState :=
  { st with error := some "WebSocket connection error", isConnected := false }

/-- `ws.onclose` (lines 104-124): mark disconnected; if the close code is not
1000 and fewer than `MAX_RECONNECT_ATTEMPTS` reconnects have been made,
increment the counter and schedule a reconnect; otherwise, if the counter has
reached the bound, surface the terminal reconnect-failure error. -/
def onclose (code : ℕ) (st : WSState) : WSState × List WSAction :=
  let st1 := { st with isConnected := false, wsOpen := false }
  if code ≠ 1000 ∧ st1.reconnectAttempts < MAX_RECONNECT_ATTEMPTS then
    ({ st1 with
        reconnectAttempts := st1.reconnectAttempts + 1
        reconnectTimeoutSet := true },
     [WSAction.scheduleReconnect])
  else if MAX_RECONNECT_ATTEMPTS ≤ st1.reconnectAttempts then
    ({ st1 with error := some "Failed to reconnect after multiple attempts" }, [])
  else (st1, [])

/-- `disconnect` (lines 140-163): cancel a pending reconnect timer if any;
then, if a socket is held, send the stop control message when the socket is
open, close it with code 1000, and null the ref; finally mark disconnected. -/
def disconnect (st : WSState) : WSState × List WSAction :=
  let acts1 := if st.reconnectTimeoutSet then [WSAction.clearReconnectTimeout] else []
  let acts2 :=
    if st.wsPresent then
      (if st.wsOpen then [WSAction.sendStopCommand] else []) ++ [WSAction.closeSocket 1000]
    else []
  ({ st with
      reconnectTimeoutSet := false
      wsPresent := false
      wsOpen := false
      isConnected := false },
   acts1 ++ acts2)

/-- `clearTranscripts` (lines 181-187): reset both transcript buffers. -/
def clearTranscripts (st : WSState) : WSState :=
  { st with interimTranscript := "", finalTranscript := "" }

/-- A run of consecutive close events: fold `onclose` over the list of close
codes, concatenating the emitted actions. -/
def runCloses (codes : List ℕ) (st : WSState) : WSState × List WSAction :=
  codes.foldl (fun p c => ((onclose c p.1).1, p.2 ++ (onclose c p.1).2)) (st, [])

/-- Concrete active recording state used to instantiate shutdown theorems. -/
def activeRecorderState : RecorderState where
  workletPresent := true
  intervalSet := true
  audioChunks := [[1 / 2]]
  contextPresent := true
  streamPresent := true
  isRecording := true
  isPaused := false
  sent := []

/-- Concrete transport state holding an open socket, used to instantiate
connection theorems. -/
def openWSState : WSState where
  interimTranscript := ""
  finalTranscript := ""
  isConnected := true
  error := none
  reconnectAttempts := 0
  reconnectTimeoutSet := false
  wsPresent := true
  wsOpen := true

theorem truncQ_nonneg_eq_floor (q : ℚ) (h : 0 ≤ q) : truncQ q = Int.floor q := by
  unfold truncQ
  rw [if_neg (not_lt.mpr h)]

theorem truncQ_of_neg (q : ℚ) (h : q < 0) : truncQ q = -(Int.floor (-q)) := by
  unfold truncQ
  rw [if_pos h]

/-- C1: every input sample is clamped to [-1,1] and quantized asymmetrically
(negative values scaled by 32768, non-negative values by 32767), so the result
always lies in the signed 16-bit range [-32768, 32767]; in particular the
sample 1.0 encodes to 32767. -/
theorem C1_encoder_range (x : ℚ) :
    (-32768 ≤ floatTo16BitPCM_sample x ∧ floatTo16BitPCM_sample x ≤ 32767) ∧
    floatTo16BitPCM_sample 1 = 32767 := by
  constructor
  · unfold floatTo16BitPCM_sample
    set s : ℚ := max (-1) (min 1 x) with hs
    have hs_lb : (-1 : ℚ) ≤ s := le_max_left _ _
    have hs_ub : s ≤ 1 := max_le (by norm_num) (min_le_left _ _)
    by_cases hneg : s < 0
    · rw [if_pos hneg, truncQ_of_neg _ (by nlinarith)]
      constructor
      · have : Int.floor (-(s * 32768)) ≤ (32768 : ℤ) := by
          apply Int.floor_le_iff.mpr
          push_cast
          nlinarith
        omega
      · have : (0 : ℤ) ≤ Int.floor (-(s * 32768)) := by
          apply Int.le_floor.mpr
          push_cast
          nlinarith
        omega
    · push_neg at hneg
      rw [if_neg (not_lt.mpr hneg), truncQ_nonneg_eq_floor _ (by nlinarith)]
      constructor
      · have : (0 : ℤ) ≤ Int.floor (s * 32767) := by
          apply Int.le_floor.mpr
          push_cast
          nlinarith
        omega
      · apply Int.floor_le_iff.mpr
        push_cast
        nlinarith
  · have h1 : max (-1 : ℚ) (min 1 1) = 1 := by norm_num
    simp only [floatTo16BitPCM_sample, h1]
    norm_num [truncQ]

/-- C3 fails as stated: at the sample 32769/65536 (exactly representable as a
float), the encoder yields 16383 and the decoded value differs from the input
by 65535/(65536*32767), which is strictly greater than 1/32768. -/
theorem C3_counterexample :
    (1 : ℚ) / 32768 <
      |decodeSample (floatTo16BitPCM_sample (32769 / 65536)) - 32769 / 65536| := by
  have hx : max (-1 : ℚ) (min 1 (32769 / 65536)) = 32769 / 65536 := by
    rw [min_eq_right (by norm_num), max_eq_right (by norm_num)]
  have henc : floatTo16BitPCM_sample (32769 / 65536) = 16383 := by
    simp only [floatTo16BitPCM_sample, hx]
    rw [if_neg (by norm_num), truncQ_nonneg_eq_floor _ (by norm_num),
      Int.floor_eq_iff]
    norm_num
  have hd : decodeSample 16383 = 16383 / 32767 := by
    simp only [decodeSample]
    rw [if_neg (by norm_num)]
    norm_num
  rw [henc, hd, abs_of_neg (by norm_num)]
  norm_num

/-- C3 (amended): for every sample s in [-1,1], decoding the encoded 16-bit
integer differs from s by at most 1/32767 (the bound 1/32768 holds on the
negative side but fails for some non-negative samples). -/
theorem C3_amended_roundtrip (s : ℚ) (h1 : -1 ≤ s) (h2 : s ≤ 1) :
    |decodeSample (floatTo16BitPCM_sample s) - s| ≤ 1 / 32767 := by
  have hclamp : max (-1 : ℚ) (min 1 s) = s := by
    rw [min_eq_right h2, max_eq_right h1]
  simp only [floatTo16BitPCM_sample, hclamp]
  by_cases hneg : s < 0
  · rw [if_pos hneg, truncQ_of_neg _ (by nlinarith)]
    set m : ℤ := Int.floor (-(s * 32768)) with hm
    have hfl : (m : ℚ) ≤ -(s * 32768) := Int.floor_le _
    have hfu : -(s * 32768) < m + 1 := Int.lt_floor_add_one _
    have hm0 : 0 ≤ m := Int.le_floor.mpr (by push_cast; nlinarith)
    by_cases hmz : m = 0
    · rw [hmz]
      have hd : decodeSample (-(0 : ℤ)) = 0 := by
        simp [decodeSample]
      rw [hd, abs_le]
      rw [hmz] at hfu
      push_cast at hfu
      constructor <;> nlinarith
    · have hmpos : 0 < m := lt_of_le_of_ne hm0 (Ne.symm hmz)
      have hd : decodeSample (-m) = ((-m : ℤ) : ℚ) / 32768 := by
        simp only [decodeSample]
        rw [if_pos (by omega : (-m : ℤ) < 0)]
      rw [hd, abs_le]
      push_cast
      constructor <;> nlinarith
  · push_neg at hneg
    rw [if_neg (not_lt.mpr hneg), truncQ_nonneg_eq_floor _ (by nlinarith)]
    set m : ℤ := Int.floor (s * 32767) with hm
    have hfl : (m : ℚ) ≤ s * 32767 := Int.floor_le _
    have hfu : s * 32767 < m + 1 := Int.lt_floor_add_one _
    have hm0 : 0 ≤ m := Int.le_floor.mpr (by push_cast; nlinarith)
    have hd : decodeSample m = (m : ℚ) / 32767 := by
      simp only [decodeSample]
      rw [if_neg (by omega : ¬m < 0)]
    rw [hd, abs_le]
    constructor <;> nlinarith

/-- C3 witness: the amended bound instantiated at the sample 1/2. -/
theorem C3_amended_roundtrip_witness :
    (-1 : ℚ) ≤ 1 / 2 ∧ (1 / 2 : ℚ) ≤ 1 ∧
      |decodeSample (floatTo16BitPCM_sample (1 / 2)) - 1 / 2| ≤ 1 / 32767 :=
  ⟨by norm_num, by norm_num,
    C3_amended_roundtrip (1 / 2) (by norm_num) (by norm_num)⟩

theorem sum_map_const_nat {α : Type} (l : List α) (c : ℕ) :
    (l.map fun _ => c).sum = l.length * c := by
  induction l with
  | nil => simp
  | cons a t ih => simp [ih]; ring

/-- C2: flushing a non-empty accumulator of N frames, each of length L, emits
exactly one packet: the accumulator is cleared, the single transmitted packet
is the concatenation of the per-frame encodings in arrival order (so samples
keep capture order, with no gap, duplication, or reordering), and it holds
exactly N*L samples. -/
theorem C2_packet_completeness (st : RecorderState) (L : ℕ)
    (hne : st.audioChunks ≠ []) (hlen : ∀ f ∈ st.audioChunks, f.length = L) :
    (processAndSendChunks st).1.audioChunks = [] ∧
    (processAndSendChunks st).2 =
      [RecAction.sendPacket ((st.audioChunks.map floatTo16BitPCM).flatten)] ∧
    (processAndSendChunks st).1.sent =
      st.sent ++ [(st.audioChunks.map floatTo16BitPCM).flatten] ∧
    ((st.audioChunks.map floatTo16BitPCM).flatten).length =
      st.audioChunks.length * L := by
  have hni : st.audioChunks.isEmpty = false := by
    simpa [List.isEmpty_iff] using hne
  have hflat : floatTo16BitPCM st.audioChunks.flatten
      = (st.audioChunks.map floatTo16BitPCM).flatten := by
    simp only [floatTo16BitPCM, List.map_flatten]
    rfl
  have hcong : (st.audioChunks.map fun f => (floatTo16BitPCM f).length)
      = st.audioChunks.map fun _ => L := by
    apply List.map_congr_left
    intro a ha
    simp [floatTo16BitPCM, hlen a ha]
  refine ⟨?_, ?_, ?_, ?_⟩
  · simp [processAndSendChunks, hni]
  · simp [processAndSendChunks, hni, hflat]
  · simp [processAndSendChunks, hni, hflat]
  · rw [List.length_flatten, List.map_map]
    have hco : (List.length ∘ floatTo16BitPCM)
        = fun f => (floatTo16BitPCM f).length := rfl
    rw [hco, hcong, sum_map_const_nat]

/-- C2 witness: a single two-sample frame flushed from an otherwise fresh
accumulator. -/
theorem C2_packet_completeness_witness :
    (onAudioChunk [1 / 2, 1 / 2] initialRecorderState).audioChunks ≠ [] ∧
    (∀ f ∈ (onAudioChunk [1 / 2, 1 / 2] initialRecorderState).audioChunks,
      f.length = 2) ∧
    ((processAndSendChunks (onAudioChunk [1 / 2, 1 / 2] initialRecorderState)).1.audioChunks = [] ∧
     (processAndSendChunks (onAudioChunk [1 / 2, 1 / 2] initialRecorderState)).2 =
       [RecAction.sendPacket
         (((onAudioChunk [1 / 2, 1 / 2] initialRecorderState).audioChunks.map
           floatTo16BitPCM).flatten)] ∧
     (processAndSendChunks (onAudioChunk [1 / 2, 1 / 2] initialRecorderState)).1.sent =
       (onAudioChunk [1 / 2, 1 / 2] initialRecorderState).sent ++
         [((onAudioChunk [1 / 2, 1 / 2] initialRecorderState).audioChunks.map
           floatTo16BitPCM).flatten] ∧
     (((onAudioChunk [1 / 2, 1 / 2] initialRecorderState).audioChunks.map
         floatTo16BitPCM).flatten).length =
       (onAudioChunk [1 / 2, 1 / 2] initialRecorderState).audioChunks.length * 2) :=
  ⟨by simp [onAudioChunk, initialRecorderState],
   by simp [onAudioChunk, initialRecorderState],
   C2_packet_completeness _ 2
     (by simp [onAudioChunk, initialRecorderState])
     (by simp [onAudioChunk, initialRecorderState])⟩

/-- C6 fails as stated: the guard in `processAndSendChunks` tests the number
of accumulated frames, not samples, so a state holding one empty frame has
zero accumulated samples yet a flush still invokes the send callback (with an
empty packet). -/
theorem C6_counterexample :
    ((onAudioChunk [] initialRecorderState).audioChunks.map List.length).sum = 0 ∧
    (processAndSendChunks (onAudioChunk [] initialRecorderState)).2 ≠ [] := by
  constructor
  · rfl
  · simp [processAndSendChunks, onAudioChunk, initialRecorderState]

/-- C6 (amended): a flush with zero accumulated frames is a no-op — no state
change and no transmission. (With a non-empty frame list a packet is emitted
even when every frame is empty, so zero accumulated samples guarantees no
transmission only when the frame list itself is empty.) -/
theorem C6_amended_empty_flush (st : RecorderState) (h : st.audioChunks = []) :
    processAndSendChunks st = (st, []) := by
  simp [processAndSendChunks, h]

/-- C6 witness: the amended no-op property at the hook's initial state. -/
theorem C6_amended_empty_flush_witness :
    initialRecorderState.audioChunks = [] ∧
      processAndSendChunks initialRecorderState = (initialRecorderState, []) :=
  ⟨rfl, C6_amended_empty_flush initialRecorderState rfl⟩

/-- C4: starting from a zeroed attempt counter, a continuously failing run —
six consecutive non-normal closes (the initial connection failure followed by
the failures of its reconnect attempts) — schedules exactly 5 reconnect
attempts and ends in the terminal state carrying the user-visible reconnect
failure error; and a successful open resets the attempt counter to 0. -/
theorem C4_reconnect_bound (c1 c2 c3 c4 c5 c6 : ℕ) (st : WSState)
    (h1 : c1 ≠ 1000) (h2 : c2 ≠ 1000) (h3 : c3 ≠ 1000)
    (h4 : c4 ≠ 1000) (h5 : c5 ≠ 1000) (h6 : c6 ≠ 1000)
    (hatt : st.reconnectAttempts = 0) :
    ((runCloses [c1, c2, c3, c4, c5, c6] st).2.count WSAction.scheduleReconnect = 5 ∧
      (runCloses [c1, c2, c3, c4, c5, c6] st).1.error =
        some "Failed to reconnect after multiple attempts") ∧
    (∀ st2 : WSState, (onopen st2).reconnectAttempts = 0) := by
  refine ⟨?_, fun st2 => rfl⟩
  obtain ⟨it, ft, ic, er, ra, rt, wp, wo⟩ := st
  simp only [WSState.reconnectAttempts] at hatt
  subst hatt
  simp [runCloses, onclose, MAX_RECONNECT_ATTEMPTS, h1, h2, h3, h4, h5, h6,
    List.count_cons]

/-- C4 witness: six closes with code 1006 from the hook's initial state. -/
theorem C4_reconnect_bound_witness :
    (1006 : ℕ) ≠ 1000 ∧ initialWSState.reconnectAttempts = 0 ∧
    (((runCloses [1006, 1006, 1006, 1006, 1006, 1006] initialWSState).2.count
        WSAction.scheduleReconnect = 5 ∧
      (runCloses [1006, 1006, 1006, 1006, 1006, 1006] initialWSState).1.error =
        some "Failed to reconnect after multiple attempts") ∧
      (∀ st2 : WSState, (onopen st2).reconnectAttempts = 0)) :=
  ⟨by decide, rfl,
    C4_reconnect_bound 1006 1006 1006 1006 1006 1006 initialWSState
      (by decide) (by decide) (by decide) (by decide) (by decide) (by decide) rfl⟩

theorem onmessage_final_extends (m : WSMessage) (st : WSState) :
    ∃ e, (onmessage m st).finalTranscript = st.finalTranscript ++ e := by
  cases m with
  | transcription t f =>
      cases f with
      | false => exact ⟨"", by simp [onmessage]⟩
      | true => exact ⟨t ++ " ", by simp [onmessage, String.append_assoc]⟩
  | errorMessage msg => exact ⟨"", by simp [onmessage]⟩
  | malformed => exact ⟨"", by simp [onmessage]⟩

theorem foldl_onmessage_final_extends (msgs : List WSMessage) (st : WSState) :
    ∃ e, (msgs.foldl (fun s m => onmessage m s) st).finalTranscript
      = st.finalTranscript ++ e := by
  induction msgs generalizing st with
  | nil => exact ⟨"", by simp⟩
  | cons m rest ih =>
      obtain ⟨e1, he1⟩ := onmessage_final_extends m st
      obtain ⟨e2, he2⟩ := ih (onmessage m st)
      refine ⟨e1 ++ e2, ?_⟩
      calc ((m :: rest).foldl (fun s m => onmessage m s) st).finalTranscript
          = (rest.foldl (fun s m => onmessage m s) (onmessage m st)).finalTranscript := by
            rw [List.foldl_cons]
        _ = (onmessage m st).finalTranscript ++ e2 := he2
        _ = (st.finalTranscript ++ e1) ++ e2 := by rw [he1]
        _ = st.finalTranscript ++ (e1 ++ e2) := String.append_assoc _ _ _

/-- C5: an interim event replaces the preview buffer and leaves the settled
buffer unchanged; a final event appends its text plus a separating space to
the settled buffer and clears the preview; and across any sequence of events
the settled buffer only grows (the previous value stays at its front). -/
theorem C5_transcript_reconciliation (st : WSState) (t : String) :
    ((onmessage (WSMessage.transcription t false) st).finalTranscript
        = st.finalTranscript ∧
      (onmessage (WSMessage.transcription t false) st).interimTranscript = t) ∧
    ((onmessage (WSMessage.transcription t true) st).finalTranscript
        = st.finalTranscript ++ t ++ " " ∧
      (onmessage (WSMessage.transcription t true) st).interimTranscript = "") ∧
    (∀ msgs : List WSMessage,
      ∃ e, (msgs.foldl (fun s m => onmessage m s) st).finalTranscript
        = st.finalTranscript ++ e) :=
  ⟨⟨rfl, rfl⟩, ⟨rfl, rfl⟩, fun msgs => foldl_onmessage_final_extends msgs st⟩

/-- C7: stopping an active recording with a non-empty accumulator still emits
the buffered packet, and does so before the device stream is released; and
disconnecting while the socket is open sends exactly one stop control message,
immediately before the socket is closed with the normal code 1000. -/
theorem C7_clean_shutdown (rst : RecorderState) (wst : WSState)
    (hchunks : rst.audioChunks ≠ [])
    (hw : rst.workletPresent = true) (hi : rst.intervalSet = true)
    (hc : rst.contextPresent = true) (hs : rst.streamPresent = true)
    (hp : wst.wsPresent = true) (ho : wst.wsOpen = true) :
    (stopRecording rst).2 =
      [RecAction.workletStopMsg, RecAction.clearChunkInterval,
        RecAction.sendPacket (floatTo16BitPCM rst.audioChunks.flatten),
        RecAction.disconnectWorklet, RecAction.closeAudioContext,
        RecAction.releaseStream] ∧
    (∃ pre, (disconnect wst).2 =
        pre ++ [WSAction.sendStopCommand, WSAction.closeSocket 1000] ∧
      WSAction.sendStopCommand ∉ pre) := by
  constructor
  · have hni : rst.audioChunks.isEmpty = false := by
      simpa [List.isEmpty_iff] using hchunks
    simp [stopRecording, processAndSendChunks, hni, hw, hi, hc, hs]
  · by_cases ht : wst.reconnectTimeoutSet
    · refine ⟨[WSAction.clearReconnectTimeout], ?_, by simp⟩
      simp [disconnect, hp, ho, ht]
    · refine ⟨[], ?_, by simp⟩
      simp [disconnect, hp, ho, ht]

/-- C7 witness: an active recording state holding one buffered frame and an
open socket. -/
theorem C7_clean_shutdown_witness :
    activeRecorderState.audioChunks ≠ [] ∧
    activeRecorderState.workletPresent = true ∧
    activeRecorderState.intervalSet = true ∧
    activeRecorderState.contextPresent = true ∧
    activeRecorderState.streamPresent = true ∧
    openWSState.wsPresent = true ∧
    openWSState.wsOpen = true ∧
    ((stopRecording activeRecorderState).2 =
        [RecAction.workletStopMsg, RecAction.clearChunkInterval,
          RecAction.sendPacket (floatTo16BitPCM activeRecorderState.audioChunks.flatten),
          RecAction.disconnectWorklet, RecAction.closeAudioContext,
          RecAction.releaseStream] ∧
      ∃ pre, (disconnect openWSState).2 =
          pre ++ [WSAction.sendStopCommand, WSAction.closeSocket 1000] ∧
        WSAction.sendStopCommand ∉ pre) :=
  ⟨by simp [activeRecorderState], rfl, rfl, rfl, rfl, rfl, rfl,
    C7_clean_shutdown activeRecorderState openWSState
      (by simp [activeRecorderState]) rfl rfl rfl rfl rfl rfl⟩

/-- C8: transport-level failure handling — the error handler, a close with any
code, and a (re)connect call — leaves both transcript buffers untouched; only
status and error fields change. -/
theorem C8_failures_preserve_transcripts (st : WSState) (code : ℕ) :
    ((onerror st).finalTranscript = st.finalTranscript ∧
      (onerror st).interimTranscript = st.interimTranscript) ∧
    (((onclose code st).1).finalTranscript = st.finalTranscript ∧
      ((onclose code st).1).interimTranscript = st.interimTranscript) ∧
    (((connect st).1).finalTranscript = st.finalTranscript ∧
      ((connect st).1).interimTranscript = st.interimTranscript) := by
  refine ⟨⟨rfl, rfl⟩, ?_, ?_⟩
  · simp only [onclose]
    split_ifs <;> exact ⟨rfl, rfl⟩
  · simp only [connect]
    split_ifs <;> exact ⟨rfl, rfl⟩

/-- C9 fails on the code (a code bug): `startRecording` has no
already-recording guard, so invoking it on a state that is already recording
creates a second AudioContext, worklet node, and flush interval, and never
clears the first interval — it is not a no-op. -/
theorem C9_start_not_idempotent :
    (startRecording initialRecorderState).1.isRecording = true ∧
    (startRecording (startRecording initialRecorderState).1).2 =
      [RecAction.createAudioContext, RecAction.createWorkletNode,
        RecAction.workletStartMsg, RecAction.setChunkInterval] ∧
    RecAction.setChunkInterval ∈
      (startRecording (startRecording initialRecorderState).1).2 ∧
    RecAction.clearChunkInterval ∉
      (startRecording (startRecording initialRecorderState).1).2 := by
  refine ⟨rfl, ?_, ?_, ?_⟩ <;>
    simp [startRecording, initialRecorderState]

/-- C10: when the held socket is open, `connect` returns immediately without
creating a socket or changing any state, so a second `connect` is
observationally equal to a single one. -/
theorem C10_connect_idempotent (st : WSState)
    (hp : st.wsPresent = true) (ho : st.wsOpen = true) :
    connect st = (st, []) ∧ connect (connect st).1 = connect st := by
  have h : connect st = (st, []) := by
    simp [connect, hp, ho]
  exact ⟨h, by rw [h]; exact h⟩

/-- C10 witness: the idempotence of `connect` at a concrete open state. -/
theorem C10_connect_idempotent_witness :
    openWSState.wsPresent = true ∧ openWSState.wsOpen = true ∧
      (connect openWSState = (openWSState, []) ∧
        connect (connect openWSState).1 = connect openWSState) :=
  ⟨rfl, rfl, C10_connect_idempotent openWSState rfl rfl⟩

end SautiDarasa
